import Mathlib

/-!
Verification development for the Clio conversation-extraction engine
(`extension/src/content.js`, selectors from `extension/src/selectors.js`).

The JavaScript source is shallowly embedded: DOM documents become an
inductive tree of elements and text nodes, CSS selector queries become
document-order traversals with the exact per-selector matching predicates
of `SELECTORS`, asynchronous waiting becomes an explicit environment
function applied at each suspension point, and `fetch` becomes an oracle
`String → FetchOutcome`.  All functions are total and structurally
recursive so that concrete runs reduce inside the kernel.
-/

namespace Clio

/-! ### String helpers (JS string primitives modelled over `List Char`) -/

/-- Characters treated as whitespace by JS `String.prototype.trim`
(modelled with Lean's `Char.isWhitespace`). -/
def trimChars (l : List Char) : List Char :=
  ((l.dropWhile Char.isWhitespace).reverse.dropWhile Char.isWhitespace).reverse

/-- JS `s.trim()`. -/
def jsTrim (s : String) : String :=
  String.mk (trimChars s.data)

/-- Does `pat` occur as a leading segment of `l`? -/
def leadSeg : List Char → List Char → Bool
  | [], _ => true
  | _ :: _, [] => false
  | p :: ps, c :: cs => p == c && leadSeg ps cs

/-- Does `pat` occur anywhere inside `l` (JS `includes`, used for the
`[aria-label*="Stop"]` attribute-substring selector)? -/
def hasSeg (pat : List Char) : List Char → Bool
  | [] => leadSeg pat []
  | c :: cs => leadSeg pat (c :: cs) || hasSeg pat cs

/-- JS `s.startsWith(p)`. -/
def jsStartsWith (s p : String) : Bool :=
  leadSeg p.data s.data

/-- JS `s.includes(p)` / CSS `*=` attribute matching. -/
def jsIncludes (s p : String) : Bool :=
  hasSeg p.data s.data

/-- Replace the first occurrence of `pat` (non-empty) in `l` by `rep`:
JS `s.replace(pat, rep)` with string arguments replaces only the first
occurrence. -/
def replaceFirstL (pat rep : List Char) : List Char → List Char
  | [] => []
  | c :: cs =>
    if leadSeg pat (c :: cs) && !pat.isEmpty then
      rep ++ (c :: cs).drop pat.length
    else
      c :: replaceFirstL pat rep cs

/-- JS `s.replace(pat, rep)` for plain-string `pat`. -/
def jsReplaceFirst (s pat rep : String) : String :=
  String.mk (replaceFirstL pat.data rep.data s.data)

/-- Decimal digits of `n` via `Nat.repr` (kernel-reducible). -/
def natStr (n : Nat) : String := Nat.repr n

/-- JS `String(n).padStart(3, '0')`. -/
def pad3 (n : Nat) : String :=
  if n < 10 then "00" ++ natStr n
  else if n < 100 then "0" ++ natStr n
  else natStr n

/-- Lower-case ASCII letters (for the extension regex `[a-z]{3,4}` with
the `i` flag). -/
def isAsciiLetter (c : Char) : Bool :=
  ('a' ≤ c && c ≤ 'z') || ('A' ≤ c && c ≤ 'Z')

/-- Lower-case an ASCII character (JS `toLowerCase` on the captured
extension). -/
def lowerChar (c : Char) : Char :=
  if 'A' ≤ c && c ≤ 'Z' then Char.ofNat (c.toNat + 32) else c

/-- Hexadecimal digit, case-insensitive (`[a-f0-9]` with the `i` flag in
`extractConversationId`). -/
def isHexChar (c : Char) : Bool :=
  ('0' ≤ c && c ≤ '9') || ('a' ≤ c && c ≤ 'f') || ('A' ≤ c && c ≤ 'F')

end Clio

namespace Clio

/-! ### DOM model

An element carries its tag, attribute list, class list and the layout
observables consulted by the scroll loader (`overflowY` from
`getComputedStyle`, `scrollHeight`, `clientHeight`).  A document is the
tree rooted at `document.documentElement`. -/

structure EData where
  tag : String
  attrs : List (String × String)
  classes : List String
  overflowY : String := ""
  scrollHeight : Nat := 0
  clientHeight : Nat := 0
deriving DecidableEq, Repr

/-- DOM node: element with ordered children, or text node. -/
inductive DNode where
  | elem (d : EData) (children : List DNode)
  | text (s : String)

/-- JS `getAttribute`: first binding of the attribute name, if any. -/
def EData.attr (d : EData) (name : String) : Option String :=
  (d.attrs.find? (fun p => p.1 == name)).map (fun p => p.2)

/-- JS `classList.contains` / CSS `.cls` matching. -/
def EData.hasClass (d : EData) (cls : String) : Bool :=
  d.classes.contains cls

/-! ### Selector predicates (translated from `selectors.js`)

Each predicate is the disjunction of the comma-separated simple selectors
of the corresponding `SELECTORS` entry.  Predicates for selectors with a
descendant combinator additionally take the list of ancestor element data
(nearest first). -/

/-- `SELECTORS.userMessage`:
`user-query, [data-message-author-role="user"], .user-query-container`. -/
def matchesUserMessage (d : EData) : Bool :=
  d.tag == "user-query" ||
  d.attr "data-message-author-role" == some "user" ||
  d.hasClass "user-query-container"

/-- `SELECTORS.assistantMessage`: `model-response,
[data-message-author-role="model"], .model-response-container,
.response-container`. -/
def matchesAssistantMessage (d : EData) : Bool :=
  d.tag == "model-response" ||
  d.attr "data-message-author-role" == some "model" ||
  d.hasClass "model-response-container" ||
  d.hasClass "response-container"

/-- `SELECTORS.allMessages`:
`.conversation-container, [data-message-author-role], .conversation-turn`. -/
def matchesAllMessages (d : EData) : Bool :=
  d.hasClass "conversation-container" ||
  (d.attr "data-message-author-role").isSome ||
  d.hasClass "conversation-turn"

/-- `SELECTORS.conversationContainer`:
`.conversation-container, [data-conversation-id], main`. -/
def matchesConversationContainer (d : EData) : Bool :=
  d.hasClass "conversation-container" ||
  (d.attr "data-conversation-id").isSome ||
  d.tag == "main"

/-- `SELECTORS.scrollContainer`: `#chat-history,
.chat-history-scroll-container, [data-scroll-container], main`. -/
def matchesScrollContainer (d : EData) : Bool :=
  d.attr "id" == some "chat-history" ||
  d.hasClass "chat-history-scroll-container" ||
  (d.attr "data-scroll-container").isSome ||
  d.tag == "main"

/-- `SELECTORS.streamingIndicator`: `button[aria-label*="Stop"],
.streaming-indicator, .generating, [data-streaming="true"]`. -/
def matchesStreamingIndicator (d : EData) : Bool :=
  (d.tag == "button" && jsIncludes ((d.attr "aria-label").getD "") "Stop") ||
  d.hasClass "streaming-indicator" ||
  d.hasClass "generating" ||
  d.attr "data-streaming" == some "true"

/-- `SELECTORS.sessionTitle`:
`.conversation-title, h1[data-conversation-title], h1`. -/
def matchesSessionTitle (d : EData) : Bool :=
  d.hasClass "conversation-title" ||
  (d.tag == "h1" && (d.attr "data-conversation-title").isSome) ||
  d.tag == "h1"

/-- `SELECTORS.image`: `img`. -/
def matchesImage (d : EData) : Bool :=
  d.tag == "img"

/-- `SELECTORS.codeBlock`: `pre code, .code-block code, code-block`;
`anc` is the chain of ancestor element data, nearest first. -/
def matchesCodeBlock (anc : List EData) (d : EData) : Bool :=
  (d.tag == "code" && anc.any (fun a => a.tag == "pre")) ||
  (d.tag == "code" && anc.any (fun a => a.hasClass "code-block")) ||
  d.tag == "code-block"

/-- `SELECTORS.thinkingContent`: `model-thoughts .thoughts-body,
.thinking-content, [data-thinking-content], .thought-process`. -/
def matchesThinkingContent (anc : List EData) (d : EData) : Bool :=
  (d.hasClass "thoughts-body" && anc.any (fun a => a.tag == "model-thoughts")) ||
  d.hasClass "thinking-content" ||
  (d.attr "data-thinking-content").isSome ||
  d.hasClass "thought-process"

/-! ### Document-order traversal

`allEls` lists every element of a tree in document (preorder) order,
together with its children and ancestor chain — the semantics of
`document.querySelectorAll` filtered by a predicate.  For
`element.querySelectorAll` (descendants only) the traversal starts from
the children with the element prepended to the ancestor chain. -/

/-- An element occurrence: its data, its child list, and its ancestors
(nearest first). -/
structure El where
  anc : List EData
  d : EData
  kids : List DNode

mutual

/-- All element occurrences of a node, preorder, given the ancestors. -/
def elsOfNode (anc : List EData) : DNode → List El
  | .text _ => []
  | .elem d cs => { anc := anc, d := d, kids := cs } :: elsOfKids (d :: anc) cs

/-- All element occurrences of a node list, preorder. -/
def elsOfKids (anc : List EData) : List DNode → List El
  | [] => []
  | c :: cs => elsOfNode anc c ++ elsOfKids anc cs

end

/-- `document.querySelectorAll(sel)` as a filtered preorder traversal of
the whole document (the root element itself is considered, as for
document-level queries). -/
def docQSA (root : DNode) (p : El → Bool) : List El :=
  (elsOfNode [] root).filter p

/-- `document.querySelector(sel)`: first match in document order. -/
def docQS (root : DNode) (p : El → Bool) : Option El :=
  (docQSA root p).head?

/-- `element.querySelectorAll(sel)`: proper descendants of the element,
in document order, with the element (and its own ancestors) on the
ancestor chain. -/
def elemQSA (e : El) (p : El → Bool) : List El :=
  (elsOfKids (e.d :: e.anc) e.kids).filter p

/-- `element.querySelector(sel)`. -/
def elemQS (e : El) (p : El → Bool) : Option El :=
  (elemQSA e p).head?

mutual

/-- JS `node.textContent`: concatenation of all descendant text, in
document order. -/
def textContent : DNode → String
  | .text s => s
  | .elem _ cs => textContentL cs

/-- Concatenated text content of a node list. -/
def textContentL : List DNode → String
  | [] => ""
  | c :: cs => textContent c ++ textContentL cs

end

mutual

/-- JS `node.cloneNode(true)`: a deep copy of the subtree. -/
def cloneNode : DNode → DNode
  | .text s => .text s
  | .elem d cs => .elem d (cloneNodeL cs)

/-- Deep copy of a child list. -/
def cloneNodeL : List DNode → List DNode
  | [] => []
  | c :: cs => cloneNode c :: cloneNodeL cs

end

end Clio

namespace Clio

/-! ### Text extraction (`extractTextContent`, content.js 1043-1066)

The source clones the element, replaces each detected code region (the
`closest('pre')` of every `SELECTORS.codeBlock` match, or the match
itself when it has no `pre` ancestor) by a fenced text node, and returns
the clone's trimmed `textContent`.  `replaceWith` on the detached clone
root is a no-op, so a clone whose root is itself a `pre` is left
untouched.  The embedding assumes `pre` elements are not nested (as in
the host markup); for the first code match inside a `pre`, that `pre` is
its closest `pre` ancestor. -/

/-- First `SELECTORS.codeBlock` match among `ns` (document order), the
ancestor chain `anc` extending above the list. -/
def firstCodeMatch (anc : List EData) (ns : List DNode) : Option El :=
  ((elsOfKids anc ns).filter (fun e => matchesCodeBlock e.anc e.d)).head?

/-- JS `a || b || ...` over possibly-empty strings: the first candidate
that is present and non-empty (the empty string is falsy). -/
def langChain : List (Option String) → String
  | [] => ""
  | some s :: rest => if s == "" then langChain rest else s
  | none :: rest => langChain rest

/-- Language label lookup of `extractTextContent`: code attribute, code
dataset (the same `data-language` attribute), `pre` attribute, first
`[data-language]` descendant of the `pre`, first `.language-label`
descendant's text.  When the match has no `pre` ancestor the source uses
the code element itself as `pre`. -/
def langOf (codeD : EData) (preD : EData) (preKids : List DNode) : String :=
  langChain
    [codeD.attr "data-language",
     codeD.attr "data-language",
     preD.attr "data-language",
     (((elsOfKids [preD] preKids).filter
         (fun e => (e.d.attr "data-language").isSome)).head?).bind
       (fun e => e.d.attr "data-language"),
     (((elsOfKids [preD] preKids).filter
         (fun e => e.d.hasClass "language-label")).head?).map
       (fun e => textContentL e.kids)]

/-- The fenced replacement text
`"\n" + "```" + lang + "\n" + codeText + "\n" + "```" + "\n"`. -/
def fenceString (lang body : String) : String :=
  "\n```" ++ lang ++ "\n" ++ body ++ "\n```\n"

mutual

/-- Code-region replacement below the clone root: a `pre` containing a
code match becomes the fenced text of its first match; a match without a
`pre` ancestor is fenced in place; everything else is rebuilt. -/
def pcbNode (anc : List EData) : DNode → DNode
  | .text s => .text s
  | .elem d cs =>
    if d.tag == "pre" then
      match firstCodeMatch (d :: anc) cs with
      | some code => .text (fenceString (langOf code.d d cs) (textContentL code.kids))
      | none => .elem d (pcbKids (d :: anc) cs)
    else if matchesCodeBlock anc d && !(anc.any (fun a => a.tag == "pre")) then
      .text (fenceString (langOf d d cs) (textContentL cs))
    else
      .elem d (pcbKids (d :: anc) cs)

/-- `pcbNode` over a child list. -/
def pcbKids (anc : List EData) : List DNode → List DNode
  | [] => []
  | c :: cs => pcbNode anc c :: pcbKids anc cs

end

/-- Code-region replacement on the whole (detached) clone.  The root is
never replaced: it is not among `querySelectorAll`'s descendants, and
`replaceWith` on the parentless root is a no-op — in particular a clone
whose root is a `pre` is returned unchanged. -/
def processCodeBlocks : DNode → DNode
  | .text s => .text s
  | .elem d cs =>
    if d.tag == "pre" then .elem d cs
    else .elem d (pcbKids [d] cs)

/-- `extractTextContent` (content.js 1043-1066): clone, replace code
regions, return the trimmed text content. -/
def extractTextContent (element : DNode) : String :=
  jsTrim (textContent (processCodeBlocks (cloneNode element)))

/-- `extractTextContent` applied to an element occurrence. -/
def extractTextContentEl (e : El) : String :=
  extractTextContent (.elem e.d e.kids)

/-! ### Turn extraction (content.js 1069-1197) -/

/-- One attachment of a turn: literal object
`type/filename/originalSrc` plus the `error` property assigned by the
image pipeline on failure. -/
structure Attachment where
  type : String
  filename : Option String
  originalSrc : String
  error : Option String := none
deriving DecidableEq, Repr

/-- One conversation turn as built by `extractUserTurn` /
`extractAssistantTurn`. -/
structure Turn where
  index : Nat
  role : String
  content : String
  thinking : Option String
  attachments : List Attachment
deriving DecidableEq, Repr

/-- `extractThinking` (content.js 1073-1079): first
`SELECTORS.thinkingContent` descendant of the live element, extracted
with `extractTextContent`. -/
def extractThinking (e : El) : Option String :=
  (elemQS e (fun x => matchesThinkingContent x.anc x.d)).map extractTextContentEl

/-- `findImages` (content.js 1087-1093): the `src` of every `img`
descendant (an absent attribute reads as the empty string; URL
resolution of the `src` property is not modelled). -/
def findImages (e : El) : List String :=
  (elemQSA e (fun x => matchesImage x.d)).map (fun x => (x.d.attr "src").getD "")

/-- Removal of the first matching descendant from a sibling list
(`querySelector` + `ChildNode.remove` on the clone); returns the updated
list and whether a match was removed. -/
def removeFirstK (p : El → Bool) (anc : List EData) : List DNode → List DNode × Bool
  | [] => ([], false)
  | .text s :: cs =>
    let r := removeFirstK p anc cs
    (.text s :: r.1, r.2)
  | .elem d k :: cs =>
    if p { anc := anc, d := d, kids := k } then (cs, true)
    else
      let rn := removeFirstK p (d :: anc) k
      if rn.2 then (.elem d rn.1 :: cs, true)
      else
        let r := removeFirstK p anc cs
        (.elem d k :: r.1, r.2)

/-- The thinking-content excision of `extractAssistantTurn`: remove the
first `SELECTORS.thinkingContent` descendant of the (detached) content
clone, if any. -/
def removeFirstThinking : DNode → DNode
  | .text s => .text s
  | .elem d k =>
    .elem d (removeFirstK (fun x => matchesThinkingContent x.anc x.d) [d] k).1

/-- `extractUserTurn` (content.js 1101-1115). -/
def extractUserTurn (e : El) (index : Nat) : Turn :=
  { index := index
    role := "user"
    content := extractTextContentEl e
    thinking := none
    attachments := (findImages e).map (fun src =>
      { type := "image", filename := none, originalSrc := src }) }

/-- `extractAssistantTurn` (content.js 1123-1145): thinking is read from
the live element, then excised from a clone before main-content
extraction. -/
def extractAssistantTurn (e : El) (index : Nat) : Turn :=
  let thinking := extractThinking e
  let contentClone := cloneNode (.elem e.d e.kids)
  { index := index
    role := "assistant"
    content := extractTextContent (removeFirstThinking contentClone)
    thinking := thinking
    attachments := (findImages e).map (fun src =>
      { type := "image", filename := none, originalSrc := src }) }

/-- Stable insertion into a rank-sorted list (earlier elements stay
first among equal ranks). -/
def insertRank (x : Nat × El) : List (Nat × El) → List (Nat × El)
  | [] => [x]
  | y :: ys => if y.1 ≤ x.1 then y :: insertRank x ys else x :: y :: ys

/-- Stable sort by document-order rank: the
`[...userMsgs, ...assistantMsgs].sort(compareDocumentPosition)` fallback
of `extractTurns`, with each element keyed by its preorder position. -/
def sortByRank : List (Nat × El) → List (Nat × El)
  | [] => []
  | x :: xs => insertRank x (sortByRank xs)

/-- The role test of the `extractTurns` loop (content.js 1179-1181). -/
def isUserElement (e : El) : Bool :=
  matchesUserMessage e.d ||
  e.d.attr "data-message-author-role" == some "user" ||
  e.d.hasClass "user-query-container"

/-- The indexed extraction loop of `extractTurns` (content.js
1175-1194), turn list only (`turnsFromD` below additionally threads the
live document through the progress-indicator updates). -/
def turnsFrom (i : Nat) : List El → List Turn
  | [] => []
  | e :: rest =>
    (if isUserElement e then extractUserTurn e i else extractAssistantTurn e i)
      :: turnsFrom (i + 1) rest

/-- The element capture of `extractTurns` (content.js 1156-1170): the
static `querySelectorAll(SELECTORS.allMessages)` NodeList; if empty, the
union of role matches sorted by document position. -/
def capturedEls (root : DNode) : List El :=
  let msgs := docQSA root (fun e => matchesAllMessages e.d)
  if msgs.isEmpty then
    let ranked := (elsOfNode [] root).enum
    let userMsgs := ranked.filter (fun r => matchesUserMessage r.2.d)
    let assistantMsgs := ranked.filter (fun r => matchesAssistantMessage r.2.d)
    (sortByRank (userMsgs ++ assistantMsgs)).map (fun r => r.2)
  else msgs

/-- `extractTurns` (content.js 1152-1197): extract each captured
element with its loop index. -/
def extractTurns (root : DNode) : List Turn :=
  turnsFrom 0 (capturedEls root)

/-! ### The progress indicator (`showProgress`, content.js 718-738)

`extractTurns` is not free of live-document mutation: every
`BATCH_SIZE = 20` messages it calls `showProgress`, which appends the
`#clio-progress` div to `document.body` on first use and rewrites its
text afterwards.  `turnsFromD` threads the document through these
updates so that the post-run document is computed, not assumed. -/

/-- Is an element the `#clio-progress` indicator? -/
def isProgressE (d : EData) : Bool :=
  d.attr "id" == some "clio-progress"

/-- The `#clio-progress` element created by `showProgress` (content.js
719-736; the inline style attribute is not modelled). -/
def progressDiv (msg : String) : DNode :=
  .elem { tag := "div", attrs := [("id", "clio-progress")], classes := [] }
    [.text msg]

mutual

/-- Does the tree contain a `#clio-progress` element (the
`progressElement` module variable being non-null)? -/
def hasProgressN : DNode → Bool
  | .text _ => false
  | .elem d cs => isProgressE d || hasProgressL cs

/-- List version of `hasProgressN`. -/
def hasProgressL : List DNode → Bool
  | [] => false
  | c :: cs => hasProgressN c || hasProgressL cs

end

mutual

/-- `progressElement.textContent = message` on a subtree: rewrite the
children of the first `#clio-progress` element; the flag reports whether
one was found. -/
def setProgressTextN (msg : String) : DNode → DNode × Bool
  | .text s => (.text s, false)
  | .elem d k =>
    if isProgressE d then (.elem d [.text msg], true)
    else
      let r := setProgressTextK msg k
      (.elem d r.1, r.2)

/-- List version of `setProgressTextN`: stop at the first subtree that
contained the indicator. -/
def setProgressTextK (msg : String) : List DNode → List DNode × Bool
  | [] => ([], false)
  | c :: cs =>
    let rn := setProgressTextN msg c
    if rn.2 then (rn.1 :: cs, true)
    else
      let r := setProgressTextK msg cs
      (c :: r.1, r.2)

end

mutual

/-- `document.body.appendChild(progressElement)` on a subtree: append
the indicator to the children of the first `body` element; the flag
reports whether a `body` was found (with no body the source would throw;
the model leaves the tree unchanged). -/
def appendProgressN (msg : String) : DNode → DNode × Bool
  | .text s => (.text s, false)
  | .elem d k =>
    if d.tag == "body" then (.elem d (k ++ [progressDiv msg]), true)
    else
      let r := appendProgressK msg k
      (.elem d r.1, r.2)

/-- List version of `appendProgressN`: stop at the first subtree that
contained a `body`. -/
def appendProgressK (msg : String) : List DNode → List DNode × Bool
  | [] => ([], false)
  | c :: cs =>
    let rn := appendProgressN msg c
    if rn.2 then (rn.1 :: cs, true)
    else
      let r := appendProgressK msg cs
      (c :: r.1, r.2)

end

/-- `showProgress(message)` as a document transformation: create and
append the indicator when absent, else rewrite its text. -/
def showProgressD (msg : String) : DNode → DNode
  | .text s => .text s
  | .elem d cs =>
    if hasProgressN (.elem d cs) then
      if isProgressE d then .elem d [.text msg]
      else .elem d (setProgressTextK msg cs).1
    else
      if d.tag == "body" then .elem d (cs ++ [progressDiv msg])
      else .elem d (appendProgressK msg cs).1

/-- The extraction loop with the live document threaded through: after
pushing turn `i`, when `i > 0 && i % BATCH_SIZE == 0` the source calls
`showProgress` with the extraction message (content.js 1190-1192).
Turns are read from the captured (static) NodeList, which coincides with
live reads whenever the mutation point — `document.body` — is not inside
a captured element. -/
def turnsFromD (total : Nat) : Nat → List El → DNode → List Turn × DNode
  | _, [], doc => ([], doc)
  | i, e :: rest, doc =>
    let turn := if isUserElement e then extractUserTurn e i else extractAssistantTurn e i
    let doc1 :=
      if i > 0 && i % 20 == 0 then
        showProgressD ("Extracting turn " ++ natStr i ++ "/" ++ natStr total ++ "...")
          doc
      else doc
    let r := turnsFromD total (i + 1) rest doc1
    (turn :: r.1, r.2)

/-- `extractTurns` with its live-document effect: the turn list together
with the document after the run (the captured element list and loop of
content.js 1152-1197, with the `showProgress` calls applied to the
document). -/
def extractTurnsD (root : DNode) : List Turn × DNode :=
  turnsFromD (capturedEls root).length 0 (capturedEls root) root

/-- Is a node kept by the progress strip (everything except a
`#clio-progress` element)? -/
def notProgressNode : DNode → Bool
  | .text _ => true
  | .elem d _ => !isProgressE d

mutual

/-- Remove every `#clio-progress` element from a tree (the root element
itself is kept): the observation «the document with the progress
indicator stripped». -/
def stripProgressN : DNode → DNode
  | .text s => .text s
  | .elem d cs => .elem d (stripProgressL cs)

/-- List version of `stripProgressN`: drop progress elements, strip
inside the rest. -/
def stripProgressL : List DNode → List DNode
  | [] => []
  | c :: cs =>
    if notProgressNode c then stripProgressN c :: stripProgressL cs
    else stripProgressL cs

end

mutual

/-- Structural equality of DOM trees (used to decide tree equalities
whose terms are too large for direct definitional unfolding). -/
def dnodeBeq : DNode → DNode → Bool
  | .text a, .text b => a == b
  | .elem d1 c1, .elem d2 c2 => d1 == d2 && dnodeBeqL c1 c2
  | _, _ => false

/-- List version of `dnodeBeq`. -/
def dnodeBeqL : List DNode → List DNode → Bool
  | [], [] => true
  | a :: as2, b :: bs => dnodeBeq a b && dnodeBeqL as2 bs
  | _, _ => false

end

end Clio

namespace Clio

/-! ### Validation, streaming, metadata (content.js 758-796, 1016-1032) -/

/-- `validateSelectors` (content.js 758-782): requires a conversation
container and, unless `SELECTORS.allMessages` already matches, at least
one user- or assistant-message match.  Returns the `missing` list; the
source's `valid` flag is `missing.isEmpty`. -/
def validateSelectors (root : DNode) : List String :=
  (if (docQS root (fun e => matchesConversationContainer e.d)).isNone
   then ["conversationContainer"] else []) ++
  (if (docQSA root (fun e => matchesAllMessages e.d)).isEmpty
      && (docQSA root (fun e => matchesUserMessage e.d)).isEmpty
      && (docQSA root (fun e => matchesAssistantMessage e.d)).isEmpty
   then ["messages"] else [])

/-- `isStreaming` (content.js 792-795). -/
def isStreaming (root : DNode) : Bool :=
  !(docQSA root (fun e => matchesStreamingIndicator e.d)).isEmpty

/-- `extractTitle` (content.js 1016-1023): session-title element, else
the document title with the `" - Gemini"` suffix removed, else the
default. -/
def extractTitle (root : DNode) (docTitle : String) : String :=
  match docQS root (fun e => matchesSessionTitle e.d) with
  | some e => jsTrim (textContentL e.kids)
  | none =>
    let t := jsTrim (jsReplaceFirst docTitle " - Gemini" "")
    if t == "" then "Untitled Conversation" else t

/-- Maximal run of hexadecimal characters at the head of `l`. -/
def hexRun : List Char → List Char
  | [] => []
  | c :: cs => if isHexChar c then c :: hexRun cs else []

/-- Leftmost match of `/\/app\/([a-f0-9]+)/i` over the path characters:
the first position where `/app/` is followed by at least one hex digit
captures the maximal hex run. -/
def findAppId : List Char → Option String
  | [] => none
  | c :: cs =>
    if leadSeg "/app/".data (c :: cs) then
      let rest := (c :: cs).drop 5
      let run := hexRun rest
      if run.isEmpty then findAppId cs else some (String.mk run)
    else findAppId cs

/-- `extractConversationId` (content.js 1029-1032): hex id following
`/app/` in the location pathname, else `"unknown"`. -/
def extractConversationId (pathname : String) : String :=
  (findAppId pathname.data).getD "unknown"

/-! ### Scroll loader (content.js 853-1006)

The host's asynchronous behaviour is an environment
`env : Nat → SBrowser → SBrowser` applied at every suspension point
(`sleep`), with a running time index: it may load, insert, remove or
recycle content and move the scroll offset, modelling lazy loading and
virtualization. -/

/-- `SCROLL_CONFIG` (content.js 853-860). -/
structure ScrollConfig where
  scrollStep : Nat
  scrollDelay : Nat
  stabilityDelay : Nat
  stabilityChecks : Nat
  maxScrollAttempts : Nat
  progressUpdateInterval : Nat
deriving Repr

/-- The configured values of `SCROLL_CONFIG`. -/
def SCROLL_CONFIG : ScrollConfig :=
  { scrollStep := 500
    scrollDelay := 150
    stabilityDelay := 500
    stabilityChecks := 3
    maxScrollAttempts := 1000
    progressUpdateInterval := 10 }

/-- `countMessages` (content.js 866-874). -/
def countMessages (root : DNode) : Nat :=
  let messages := docQSA root (fun e => matchesAllMessages e.d)
  if messages.length > 0 then messages.length
  else
    (docQSA root (fun e => matchesUserMessage e.d)).length +
    (docQSA root (fun e => matchesAssistantMessage e.d)).length

/-- Is an element scrollable per the fallback walk of
`findScrollContainer`: computed `overflowY` of `auto`/`scroll` and
`scrollHeight > clientHeight`? -/
def isScrollable (d : EData) : Bool :=
  (d.overflowY == "auto" || d.overflowY == "scroll") &&
  d.scrollHeight > d.clientHeight

/-- The ancestor walk of `findScrollContainer` over the chain from the
conversation container upward (self first): stop at `document.body`
(identified by its tag; host documents have a single `body`), return the
first scrollable element before it. -/
def walkUpScrollable : List EData → Option EData
  | [] => none
  | d :: rest =>
    if d.tag == "body" then none
    else if isScrollable d then some d
    else walkUpScrollable rest

/-- `document.body`: first `body` element of the document. -/
def bodyEl (root : DNode) : Option El :=
  docQS root (fun e => e.d.tag == "body")

/-- The fallback path of `findScrollContainer` (content.js 887-907):
first scrollable ancestor of the conversation container (`null` when the
container selector has no match); last resort `documentElement` if
scrollable, else `document.body`. -/
def scrollFallback (root : DNode) : Option EData :=
  match docQS root (fun e => matchesConversationContainer e.d) with
  | none => none
  | some cc =>
    match walkUpScrollable (cc.d :: cc.anc) with
    | some d => some d
    | none =>
      match root with
      | .text _ => none
      | .elem rd _ =>
        if rd.scrollHeight > rd.clientHeight then some rd
        else (bodyEl root).map (fun e => e.d)

/-- `findScrollContainer` (content.js 880-908): the
`SELECTORS.scrollContainer` match if it is scrollable, otherwise the
`scrollFallback` path. -/
def findScrollContainer (root : DNode) : Option EData :=
  match docQS root (fun e => matchesScrollContainer e.d) with
  | some c => if c.d.scrollHeight > c.d.clientHeight then some c.d else scrollFallback root
  | none => scrollFallback root

/-- Browser state seen by the scroll loop: the current document and the
scroll container's `scrollTop`. -/
structure SBrowser where
  doc : DNode
  scrollTop : Nat

/-- Local variables of the `scrollToLoadAllMessages` loop. -/
structure LoopSt where
  lastMessageCount : Nat
  stableCount : Nat
  scrollAttempts : Nat
  lastScrollTop : Nat
deriving Repr

/-- Result shape of `scrollToLoadAllMessages`. -/
structure ScrollResult where
  success : Bool
  messagesLoaded : Nat
  scrollAttempts : Nat
  warning : Option String := none
  error : Option String := none
deriving DecidableEq, Repr

/-- The advisory produced on hitting the iteration ceiling. -/
def ceilingWarning : String :=
  "Reached maximum scroll attempts (" ++ natStr SCROLL_CONFIG.maxScrollAttempts ++
  "). Conversation may be incomplete."

/-- The `while (scrollAttempts < maxScrollAttempts)` loop of
`scrollToLoadAllMessages` (content.js 941-1005).  `fuel` is the number
of iterations still allowed (`maxScrollAttempts - scrollAttempts`); `t`
is the time index threaded through the suspension points.  Each
iteration scrolls up by `scrollStep` (clamped at 0 as `Math.max`),
suspends (`env`), re-reads position and message count, and either resets
or advances the stability counter; after `stabilityChecks` stable rounds
it suspends once more and completes if the count is unchanged. -/
def scrollLoop (env : Nat → SBrowser → SBrowser) :
    Nat → Nat → LoopSt → SBrowser → ScrollResult × SBrowser
  | 0, _, st, b =>
    ({ success := true
       messagesLoaded := countMessages b.doc
       scrollAttempts := st.scrollAttempts
       warning := some ceilingWarning }, b)
  | fuel + 1, t, st, b =>
    let attempts := st.scrollAttempts + 1
    let b1 : SBrowser := { b with scrollTop := b.scrollTop - SCROLL_CONFIG.scrollStep }
    let b2 := env t b1
    let cur := b2.scrollTop
    let atTop := cur == 0
    let cnt := countMessages b2.doc
    if cnt > st.lastMessageCount then
      scrollLoop env fuel (t + 1)
        { lastMessageCount := cnt, stableCount := 0
          scrollAttempts := attempts, lastScrollTop := cur } b2
    else if atTop || cur == st.lastScrollTop then
      let stable := st.stableCount + 1
      if stable ≥ SCROLL_CONFIG.stabilityChecks then
        let b3 := env (t + 1) b2
        let finalCnt := countMessages b3.doc
        if finalCnt == st.lastMessageCount then
          ({ success := true
             messagesLoaded := finalCnt
             scrollAttempts := attempts }, b3)
        else
          scrollLoop env fuel (t + 2)
            { lastMessageCount := finalCnt, stableCount := 0
              scrollAttempts := attempts, lastScrollTop := cur } b3
      else
        scrollLoop env fuel (t + 1)
          { lastMessageCount := st.lastMessageCount, stableCount := stable
            scrollAttempts := attempts, lastScrollTop := cur } b2
    else
      scrollLoop env fuel (t + 1)
        { lastMessageCount := st.lastMessageCount, stableCount := 0
          scrollAttempts := attempts, lastScrollTop := cur } b2

/-- `scrollToLoadAllMessages` (content.js 917-1006): resolve the scroll
container (soft failure when absent), then run the loop with
`maxScrollAttempts` fuel from the current count and offset.  Returns the
result together with the final browser state. -/
def scrollToLoadAllMessages (env : Nat → SBrowser → SBrowser)
    (root : DNode) (initTop : Nat) : ScrollResult × SBrowser :=
  match findScrollContainer root with
  | none =>
    ({ success := false
       messagesLoaded := 0
       scrollAttempts := 0
       error := some "Could not find scroll container" },
     { doc := root, scrollTop := initTop })
  | some _ =>
    scrollLoop env SCROLL_CONFIG.maxScrollAttempts 0
      { lastMessageCount := countMessages root, stableCount := 0
        scrollAttempts := 0, lastScrollTop := initTop }
      { doc := root, scrollTop := initTop }

end Clio

namespace Clio

/-! ### Image pipeline (content.js 1209-1356) -/

/-- Characters of the base64 alphabet (without padding). -/
def isB64Char (c : Char) : Bool :=
  isAsciiLetter c || ('0' ≤ c && c ≤ '9') || c == '+' || c == '/'

/-- Strip up to two trailing `=` padding characters. -/
def dropPadding (l : List Char) : List Char :=
  match l.reverse with
  | '=' :: '=' :: r => r.reverse
  | '=' :: r => r.reverse
  | _ => l

/-- Success predicate of `atob` (forgiving base64 decode): strip
whitespace, strip padding when the length is a multiple of four, then
require a length not congruent to 1 mod 4 and alphabet characters only.
The decoded bytes themselves are observed by no claim and are not
modelled. -/
def atobOk (s : String) : Bool :=
  let t := s.data.filter (fun c => !c.isWhitespace)
  let t2 := if t.length % 4 == 0 then dropPadding t else t
  t2.length % 4 != 1 && t2.all isB64Char

/-- Message of the `InvalidCharacterError` thrown by `atob` and caught
by `fetchImage` (the browser-specific wording is abstracted by this
constant). -/
def atobErrorMessage : String :=
  "The string to be decoded is not correctly encoded."

/-- The `^data:([^;]+);base64,(.+)$` parse of `fetchImage`: a non-empty
semicolon-free media type, the literal `;base64,`, and a non-empty
payload with no newline (`.` does not match newlines). -/
def parseDataUrl (s : String) : Option (String × String) :=
  if leadSeg "data:".data s.data then
    let rest := s.data.drop 5
    let mime := rest.takeWhile (fun c => !(c == ';'))
    let after := rest.drop mime.length
    if mime.isEmpty then none
    else if leadSeg ";base64,".data after then
      let payload := after.drop 8
      if payload.isEmpty || payload.contains '\n' then none
      else some (String.mk mime, String.mk payload)
    else none
  else none

/-- Characters strictly after the first `/` up to the next `/`, if a `/`
exists: `mimeType.split('/')[1]`. -/
def splitSeg1 : List Char → Option (List Char)
  | [] => none
  | c :: cs =>
    if c == '/' then some (cs.takeWhile (fun x => !(x == '/')))
    else splitSeg1 cs

/-- Boundary of the URL-extension regex: end of string or `?`. -/
def extBoundary : List Char → Bool
  | [] => true
  | c :: _ => c == '?'

/-- One attempt of `/\.([a-z]{3,4})(?:\?|$)/i` at a position just after
a dot: greedily four letters, else three, each requiring the boundary. -/
def extTryAt (cs : List Char) : Option (List Char) :=
  let l4 := cs.take 4
  if l4.length == 4 && l4.all isAsciiLetter && extBoundary (cs.drop 4) then some l4
  else
    let l3 := cs.take 3
    if l3.length == 3 && l3.all isAsciiLetter && extBoundary (cs.drop 3) then some l3
    else none

/-- Leftmost match of the URL-extension regex, lower-cased. -/
def urlExt : List Char → Option String
  | [] => none
  | c :: cs =>
    if c == '.' then
      match extTryAt cs with
      | some r => some (String.mk (r.map lowerChar))
      | none => urlExt cs
    else urlExt cs

/-- `getImageExtension` (content.js 1209-1218): second segment of the
media type (with `jpeg` rewritten to `jpg`) when non-empty, else the
URL-suffix pattern, else `png`. -/
def getImageExtension (mimeType url : String) : String :=
  let fromMime : Option String :=
    if mimeType == "" then none
    else match splitSeg1 mimeType.data with
      | some ext =>
        if ext.isEmpty then none
        else some (String.mk (replaceFirstL "jpeg".data "jpg".data ext))
      | none => none
  match fromMime with
  | some e => e
  | none =>
    match urlExt url.data with
    | some e => e
    | none => "png"

/-- Outcome of a `fetch` call on a non-data URL: a response with status,
status text and blob media type, or a thrown error.  The blob's byte
content is observed by no claim and is not modelled. -/
inductive FetchOutcome where
  | resp (status : Nat) (statusText : String) (blobType : String)
  | thrown (message : String)

/-- A failure record of the image pipeline (`type: 'image_fetch'`). -/
structure FetchFailure where
  ftype : String := "image_fetch"
  message : String
  turnIndex : Nat
  originalSrc : String
  timestamp : String
deriving DecidableEq, Repr

/-- A successful fetch: the blob's media type plus naming metadata. -/
structure ImageData where
  blobType : String
  filename : String
  originalSrc : String
  turnIndex : Nat
deriving DecidableEq, Repr

/-- Result of `fetchImage`: the source distinguishes the two shapes by
the presence of the `blob` property. -/
inductive FetchRes where
  | ok (img : ImageData)
  | err (f : FetchFailure)
deriving DecidableEq, Repr

/-- The `images/NNN.ext` filename built by `fetchImage`. -/
def imageFilename (imageIndex : Nat) (ext : String) : String :=
  "images/" ++ pad3 imageIndex ++ "." ++ ext

/-- `fetchImage` (content.js 1227-1297): data URLs are decoded in place
(a malformed shape or an `atob` throw becomes a failure record); other
URLs go through the fetch oracle, with non-2xx statuses and thrown
errors converted to failure records.  The surrounding `try/catch` makes
the function total: every outcome is a returned value, never an
exception. -/
def fetchImagePure (fetch : String → FetchOutcome) (ts : String)
    (src : String) (turnIndex imageIndex : Nat) : FetchRes :=
  if jsStartsWith src "data:" then
    match parseDataUrl src with
    | none =>
      .err { message := "Invalid data URL format", turnIndex := turnIndex
             originalSrc := src, timestamp := ts }
    | some (mimeType, payload) =>
      if atobOk payload then
        .ok { blobType := mimeType
              filename := imageFilename imageIndex (getImageExtension mimeType src)
              originalSrc := src, turnIndex := turnIndex }
      else
        .err { message := atobErrorMessage, turnIndex := turnIndex
               originalSrc := src, timestamp := ts }
  else
    match fetch src with
    | .thrown msg =>
      .err { message := if msg == "" then "Unknown fetch error" else msg
             turnIndex := turnIndex, originalSrc := src, timestamp := ts }
    | .resp status statusText blobType =>
      if 200 ≤ status && status ≤ 299 then
        .ok { blobType := blobType
              filename := imageFilename imageIndex (getImageExtension blobType src)
              originalSrc := src, turnIndex := turnIndex }
      else
        .err { message := "HTTP " ++ natStr status ++ ": " ++ statusText
               turnIndex := turnIndex, originalSrc := src, timestamp := ts }

/-- An image source gathered by the collection pass of `extractImages`. -/
structure ImgSource where
  src : String
  turnIndex : Nat
deriving DecidableEq, Repr

/-- The collection pass of `extractImages` (content.js 1312-1323): every
attachment of kind `image` with a truthy `originalSrc`, in turn order
then attachment order. -/
def sourcesOf (turns : List Turn) : List ImgSource :=
  turns.flatMap (fun t => t.attachments.filterMap (fun a =>
    if a.type == "image" && a.originalSrc != "" then
      some { src := a.originalSrc, turnIndex := t.index }
    else none))

/-- `batch.map((item, batchIdx) => fetchImage(src, turnIndex,
imageIndex + batchIdx))`: fetch each source of a batch with consecutive
image indices. -/
def mapBatch (fetch : String → FetchOutcome) (ts : String) :
    Nat → List ImgSource → List FetchRes
  | _, [] => []
  | idx, s :: rest =>
    fetchImagePure fetch ts s.src s.turnIndex idx :: mapBatch fetch ts (idx + 1) rest

/-- The batched fetch loop of `extractImages` (content.js 1326-1335):
slices of `BATCH_SIZE = 10`, with `imageIndex` advanced once per
processed item — successes and failures alike (content.js 1341-1351). -/
def processBatches (fetch : String → FetchOutcome) (ts : String) :
    Nat → List ImgSource → List FetchRes
  | idx, s1 :: s2 :: s3 :: s4 :: s5 :: s6 :: s7 :: s8 :: s9 :: s10 :: rest =>
    mapBatch fetch ts idx [s1, s2, s3, s4, s5, s6, s7, s8, s9, s10] ++
      processBatches fetch ts (idx + 10) rest
  | idx, l => mapBatch fetch ts idx l

/-- Write-back of `extractImages` over one attachment list: each
qualifying attachment consumes the next result, receiving its filename
on success or its error message on failure. -/
def applyResultsAtt : List FetchRes → List Attachment → List Attachment × List FetchRes
  | res, [] => ([], res)
  | res, a :: rest =>
    if a.type == "image" && a.originalSrc != "" then
      match res with
      | [] =>
        let r := applyResultsAtt [] rest
        (a :: r.1, r.2)
      | .ok img :: rs =>
        let r := applyResultsAtt rs rest
        ({ a with filename := some img.filename } :: r.1, r.2)
      | .err f :: rs =>
        let r := applyResultsAtt rs rest
        ({ a with error := some f.message } :: r.1, r.2)
    else
      let r := applyResultsAtt res rest
      (a :: r.1, r.2)

/-- Write-back of `extractImages` over the turn list, threading the
result stream in discovery order. -/
def applyResultsTurns : List FetchRes → List Turn → List Turn
  | _, [] => []
  | res, t :: rest =>
    let r := applyResultsAtt res t.attachments
    { t with attachments := r.1 } :: applyResultsTurns r.2 rest

/-- Output of `extractImages`: the success list, the failure list, and
the turns with their attachments updated in place. -/
structure ImagesOut where
  images : List ImageData
  errors : List FetchFailure
  turns : List Turn
deriving DecidableEq, Repr

/-- Successes of a result stream, in order. -/
def okImages (res : List FetchRes) : List ImageData :=
  res.filterMap (fun r => match r with | .ok i => some i | .err _ => none)

/-- Failures of a result stream, in order. -/
def errRecords (res : List FetchRes) : List FetchFailure :=
  res.filterMap (fun r => match r with | .ok _ => none | .err f => some f)

/-- `extractImages` (content.js 1306-1356): collect sources, fetch them
in batches of ten starting from `imageIndex = 1`, partition results into
successes and failure records, and update each source attachment. -/
def extractImages (fetch : String → FetchOutcome) (ts : String)
    (turns : List Turn) : ImagesOut :=
  let sources := sourcesOf turns
  let res := processBatches fetch ts 1 sources
  { images := okImages res
    errors := errRecords res
    turns := applyResultsTurns res turns }

end Clio

namespace Clio

/-! ### Orchestrator (`extractConversation`, content.js 1366-1451) -/

/-- `scrollInfo` of the metadata object. -/
structure ScrollInfo where
  messagesLoaded : Nat
  scrollAttempts : Nat
deriving DecidableEq, Repr

/-- The metadata object literal of content.js 1418-1431. -/
structure Metadata where
  conversationId : String
  title : String
  extractedAt : String
  url : String
  turnCount : Nat
  imageCount : Nat
  extractionErrors : List FetchFailure
  partialSuccess : Bool
  scrollInfo : ScrollInfo
deriving DecidableEq, Repr

/-- The `data` object literal of content.js 1417-1433. -/
structure DataObj where
  metadata : Metadata
  turns : List Turn
deriving DecidableEq, Repr

/-- The response shape of `extractConversation`: on error paths the
source returns only `success` and `error`, modelled by empty `data`,
`images` and `warnings`. -/
structure ExtractResult where
  success : Bool
  data : Option DataObj
  images : List ImageData
  warnings : List String
  error : Option String
deriving DecidableEq, Repr

/-- The streaming precondition error (content.js 1372). -/
def streamingError : String :=
  "Gemini is currently generating a response. Please wait for completion before extracting."

/-- The missing-selectors error (content.js 1380). -/
def missingSelectorsError (missing : List String) : String :=
  "Gemini UI may have changed. Missing selectors: " ++
  String.intercalate ", " missing ++ ". Please report this issue."

/-- Assembly of the `data` object (content.js 1417-1433) from the
extraction phases: `partialSuccess` is
`errors.length > 0 || !!scrollResult.warning`. -/
def assembleData (conversationId title extractedAt url : String)
    (turns : List Turn) (images : List ImageData)
    (errors : List FetchFailure) (scrollResult : ScrollResult) : DataObj :=
  { metadata :=
      { conversationId := conversationId
        title := title
        extractedAt := extractedAt
        url := url
        turnCount := turns.length
        imageCount := images.length
        extractionErrors := errors
        partialSuccess := decide (errors.length > 0) || scrollResult.warning.isSome
        scrollInfo :=
          { messagesLoaded := scrollResult.messagesLoaded
            scrollAttempts := scrollResult.scrollAttempts } }
    turns := turns }

/-- The warnings list of content.js 1408-1414. -/
def collectWarnings (scrollResult : ScrollResult) (errors : List FetchFailure) :
    List String :=
  (match scrollResult.warning with | some w => [w] | none => []) ++
  (if errors.length > 0 then
     [natStr errors.length ++ " image(s) failed to download"]
   else [])

/-- Page state handed to the orchestrator: the rendered document, the
document title, and the location's pathname/href, plus the scroll
container's current offset. -/
structure PageState where
  root : DNode
  docTitle : String
  pathname : String
  href : String
  scrollTop : Nat

/-- Environment of one extraction call: the host's reaction at scroll
suspension points, its reaction to the content-expansion clicks and the
settle delay (`expandAllContent` + `sleep(500)`), the fetch oracle, and
the clock (`new Date().toISOString()`). -/
structure ExtractEnv where
  scrollEnv : Nat → SBrowser → SBrowser
  expandEnv : DNode → DNode
  fetch : String → FetchOutcome
  ts : String

/-- `extractConversation` (content.js 1366-1451): streaming check,
selector validation (both fail-closed, before any page side effect),
then scroll, expansion, metadata, turns, images, and result assembly.
All embedded phases are total functions, so the orchestrator's outer
`try/catch` path is unreachable in the model. -/
def extractConversation (env : ExtractEnv) (pg : PageState) : ExtractResult :=
  if isStreaming pg.root then
    { success := false, data := none, images := [], warnings := []
      error := some streamingError }
  else
    let missing := validateSelectors pg.root
    if !missing.isEmpty then
      { success := false, data := none, images := [], warnings := []
        error := some (missingSelectorsError missing) }
    else
      let sr := scrollToLoadAllMessages env.scrollEnv pg.root pg.scrollTop
      let d2 := env.expandEnv sr.2.doc
      let conversationId := extractConversationId pg.pathname
      let title := extractTitle d2 pg.docTitle
      let extractedAt := env.ts
      let turns := extractTurns d2
      let ei := extractImages env.fetch env.ts turns
      { success := true
        data := some (assembleData conversationId title extractedAt pg.href
          ei.turns ei.images ei.errors sr.1)
        images := ei.images
        warnings := collectWarnings sr.1 ei.errors
        error := none }

/-! ### JSON rendering of the export contract

The object literals of the source are rendered into a JSON value so
that claims about the literal field names can be stated. -/

/-- A JSON value; objects keep their key order. -/
inductive JVal where
  | str (s : String)
  | num (n : Nat)
  | bool (b : Bool)
  | null
  | arr (xs : List JVal)
  | obj (fields : List (String × JVal))

/-- Keys of a JSON object, in literal order. -/
def jKeys : JVal → List String
  | .obj fs => fs.map (fun f => f.1)
  | _ => []

/-- The attachment object literal: `type`, `filename`, `originalSrc`,
and the `error` property when the pipeline assigned one. -/
def attToJson (a : Attachment) : JVal :=
  .obj ([("type", .str a.type),
         ("filename", match a.filename with | some f => .str f | none => .null),
         ("originalSrc", .str a.originalSrc)] ++
        (match a.error with | some e => [("error", .str e)] | none => []))

/-- The turn object literal of `extractUserTurn` /
`extractAssistantTurn`. -/
def turnToJson (t : Turn) : JVal :=
  .obj [("index", .num t.index),
        ("role", .str t.role),
        ("content", .str t.content),
        ("thinking", match t.thinking with | some s => .str s | none => .null),
        ("attachments", .arr (t.attachments.map attToJson))]

/-- The failure-record object literal of `fetchImage`. -/
def failureToJson (f : FetchFailure) : JVal :=
  .obj [("type", .str f.ftype),
        ("message", .str f.message),
        ("turnIndex", .num f.turnIndex),
        ("originalSrc", .str f.originalSrc),
        ("timestamp", .str f.timestamp)]

/-- The metadata object literal of content.js 1418-1431, key for key. -/
def metaToJson (m : Metadata) : JVal :=
  .obj [("conversationId", .str m.conversationId),
        ("title", .str m.title),
        ("extractedAt", .str m.extractedAt),
        ("url", .str m.url),
        ("turnCount", .num m.turnCount),
        ("imageCount", .num m.imageCount),
        ("extractionErrors", .arr (m.extractionErrors.map failureToJson)),
        ("partialSuccess", .bool m.partialSuccess),
        ("scrollInfo", .obj [("messagesLoaded", .num m.scrollInfo.messagesLoaded),
                             ("scrollAttempts", .num m.scrollInfo.scrollAttempts)])]

/-- The `data` object literal of content.js 1417-1433, key for key. -/
def dataToJson (d : DataObj) : JVal :=
  .obj [("metadata", metaToJson d.metadata),
        ("turns", .arr (d.turns.map turnToJson))]

end Clio

namespace Clio

/-! ### Definitions used by the claim statements -/

/-- Modelled from the spec (§4.2): a paired structural container — an
element carrying the container class that holds at most one user section
and at most one assistant section.  Used only to state claim C2. -/
def isPairedContainer (e : El) : Bool :=
  e.d.hasClass "conversation-container" &&
  decide ((elemQSA e (fun x => matchesUserMessage x.d)).length ≤ 1) &&
  decide ((elemQSA e (fun x => matchesAssistantMessage x.d)).length ≤ 1)

/-- Is a fetch result a failure record? -/
def isErrB : FetchRes → Bool
  | .err _ => true
  | .ok _ => false

/-- Does an attachment locator fail to resolve (malformed inline
payload, non-success status, or thrown fetch error)?  The image index
does not influence success, so it is fixed at 1. -/
def failsToResolve (fetch : String → FetchOutcome) (ts : String)
    (s : ImgSource) : Bool :=
  isErrB (fetchImagePure fetch ts s.src s.turnIndex 1)

/-- A success's filename starts with the zero-padded number of the image
index it was dispatched with (failures carry no filename). -/
def resNumberOk (r : FetchRes) (idx : Nat) : Bool :=
  match r with
  | .err _ => true
  | .ok img => jsStartsWith img.filename ("images/" ++ pad3 idx ++ ".")

/-- Observable message content of a document: the text of each
`SELECTORS.allMessages` match, in document order (used to witness a
net-zero-count structural mutation). -/
def msgTexts (root : DNode) : List String :=
  (docQSA root (fun e => matchesAllMessages e.d)).map (fun e => textContentL e.kids)

/-! ### Concrete fixtures for the counterexamples and witnesses -/

/-- Element shorthand. -/
def el (tag : String) (attrs : List (String × String)) (classes : List String)
    (cs : List DNode) : DNode :=
  .elem { tag := tag, attrs := attrs, classes := classes } cs

/-- A `div` with a `data-message-author-role` attribute and one text
child. -/
def roleDiv (role s : String) : DNode :=
  el "div" [("data-message-author-role", role)] [] [.text s]

/-- A scroll environment in which the host never reacts. -/
def idScrollEnv : Nat → SBrowser → SBrowser := fun _ b => b

/-- A fetch oracle for runs that perform no network fetches. -/
def noFetch : String → FetchOutcome := fun _ => .thrown "network disabled"

/-- A host environment that never reacts to scrolling or expansion. -/
def quietEnv : ExtractEnv :=
  { scrollEnv := idScrollEnv
    expandEnv := fun d => d
    fetch := noFetch
    ts := "2026-01-20T00:00:00.000Z" }

/-- A well-formed single-message conversation page. -/
def docC1 : DNode :=
  el "html" [] []
    [el "body" [] []
      [el "main" [] []
        [roleDiv "user" "Hello"]]]

/-- Page state around `docC1`. -/
def pgC1 : PageState :=
  { root := docC1
    docTitle := "Chat - Gemini"
    pathname := "/app/abc123"
    href := "https://gemini.google.com/app/abc123"
    scrollTop := 0 }

/-- One paired structural container holding one user section and one
assistant section, both marked with `data-message-author-role`. -/
def docC2 : DNode :=
  el "html" [] []
    [el "body" [] []
      [el "div" [] ["conversation-container"]
        [roleDiv "user" "Hi", roleDiv "model" "Hello"]]]

/-- Virtualization fixture, before the net-zero mutation: two messages
`A`, `B`. -/
def docV1 : DNode :=
  el "html" [] []
    [el "body" [] []
      [el "main" [] []
        [roleDiv "user" "A", roleDiv "model" "B"]]]

/-- Virtualization fixture, after one removal (`A`) plus one insertion
(`C`): the message count is unchanged. -/
def docV2 : DNode :=
  el "html" [] []
    [el "body" [] []
      [el "main" [] []
        [roleDiv "user" "C", roleDiv "model" "B"]]]

/-- A host that performs the insert-plus-remove recycling during the
settle window of the third loop iteration (time index 2). -/
def envC5 : Nat → SBrowser → SBrowser :=
  fun t b => if t == 2 then { b with doc := docV2 } else b

/-- A document with a body but no conversation container and no
scrollable region. -/
def docPlain : DNode :=
  el "html" [] []
    [el "body" [] []
      [el "div" [] [] [.text "x"]]]

/-- A document whose only message-like element is a bare paired
container: `SELECTORS.allMessages` matches it, but neither role marker
does. -/
def docX4 : DNode :=
  el "html" [] []
    [el "body" [] []
      [el "div" [] ["conversation-container"] [.text "hi"]]]

/-- Page state around `docX4`. -/
def pgX4 : PageState :=
  { root := docX4, docTitle := "", pathname := "", href := "", scrollTop := 0 }

/-- A page with a conversation container but no message-like structure
at all (for the fail-closed witness). -/
def docW4 : DNode :=
  el "html" [] []
    [el "body" [] []
      [el "main" [] [] [.text "empty"]]]

/-- Page state around `docW4`. -/
def pgW4 : PageState :=
  { root := docW4, docTitle := "", pathname := "", href := "", scrollTop := 0 }

/-- A conversation page with 21 role-marked messages: one more than
`BATCH_SIZE`, so the extraction loop shows the progress indicator at
`i = 20`. -/
def doc21 : DNode :=
  el "html" [] []
    [el "body" [] []
      [el "main" [] []
        ((List.range 21).map (fun i => roleDiv "user" ("m" ++ natStr i)))]]

/-- Turns carrying one malformed inline payload followed by one
well-formed inline payload. -/
def turnsC7 : List Turn :=
  [{ index := 0
     role := "user"
     content := ""
     thinking := none
     attachments :=
       [{ type := "image", filename := none, originalSrc := "data:bad" },
        { type := "image", filename := none
          originalSrc := "data:image/png;base64,AAAA" }] }]

end Clio

namespace Clio

/-! ### Helper lemmas -/

mutual

/-- A deep clone is equal, as a value, to the original subtree: mutating
a clone can never be observed through the live document. -/
theorem cloneNode_eq : (n : DNode) → cloneNode n = n
  | .text _ => rfl
  | .elem d cs => by rw [cloneNode, cloneNodeL_eq cs]

/-- List version of `cloneNode_eq`. -/
theorem cloneNodeL_eq : (l : List DNode) → cloneNodeL l = l
  | [] => rfl
  | c :: cs => by rw [cloneNodeL, cloneNode_eq c, cloneNodeL_eq cs]

end

mutual

/-- Soundness of the structural tree equality checker. -/
theorem dnodeBeq_eq : (a b : DNode) → dnodeBeq a b = true → a = b
  | .text s, .text t, h => by
    simp only [dnodeBeq, beq_iff_eq] at h
    rw [h]
  | .text _, .elem _ _, h => by simp [dnodeBeq] at h
  | .elem _ _, .text _, h => by simp [dnodeBeq] at h
  | .elem d1 c1, .elem d2 c2, h => by
    simp only [dnodeBeq, Bool.and_eq_true, beq_iff_eq] at h
    rw [h.1, dnodeBeqL_eq c1 c2 h.2]

/-- List version of `dnodeBeq_eq`. -/
theorem dnodeBeqL_eq : (a b : List DNode) → dnodeBeqL a b = true → a = b
  | [], [], _ => rfl
  | [], _ :: _, h => by simp [dnodeBeqL] at h
  | _ :: _, [], h => by simp [dnodeBeqL] at h
  | a :: as2, b :: bs, h => by
    simp only [dnodeBeqL, Bool.and_eq_true] at h
    rw [dnodeBeq_eq a b h.1, dnodeBeqL_eq as2 bs h.2]

end

/-- Every string is a leading segment of itself followed by anything. -/
theorem leadSeg_append : ∀ (l r : List Char), leadSeg l (l ++ r) = true := by
  intro l
  induction l with
  | nil => intro r; rfl
  | cons c cs ih => intro r; simp [leadSeg, ih]

/-- `p ++ s` starts with `p`. -/
theorem jsStartsWith_append (p s : String) : jsStartsWith (p ++ s) p = true := by
  show leadSeg p.data (p ++ s).data = true
  have h : (p ++ s).data = p.data ++ s.data := rfl
  rw [h, leadSeg_append]

/-- Both loop exits of `scrollLoop` report success with no error
(`findScrollContainer` failure is the only error path of the loader). -/
theorem scrollLoop_success (env : Nat → SBrowser → SBrowser) :
    ∀ (fuel t : Nat) (st : LoopSt) (b : SBrowser),
      (scrollLoop env fuel t st b).1.success = true ∧
      (scrollLoop env fuel t st b).1.error = none := by
  intro fuel
  induction fuel with
  | zero => intro t st b; exact ⟨rfl, rfl⟩
  | succ n ih =>
    intro t st b
    rw [scrollLoop]
    dsimp only
    split
    · exact ih _ _ _
    · split
      · split
        · split
          · exact ⟨rfl, rfl⟩
          · exact ih _ _ _
        · exact ih _ _ _
      · exact ih _ _ _

/-- The loop performs at most `fuel` further iterations. -/
theorem scrollLoop_attempts_le (env : Nat → SBrowser → SBrowser) :
    ∀ (fuel t : Nat) (st : LoopSt) (b : SBrowser),
      (scrollLoop env fuel t st b).1.scrollAttempts ≤ st.scrollAttempts + fuel := by
  intro fuel
  induction fuel with
  | zero => intro t st b; simp [scrollLoop]
  | succ n ih =>
    intro t st b
    rw [scrollLoop]
    dsimp only
    split
    · exact le_trans (ih _ _ _) (by simp; try omega)
    · split
      · split
        · split
          · simp
            try omega
          · exact le_trans (ih _ _ _) (by simp; try omega)
        · exact le_trans (ih _ _ _) (by simp; try omega)
      · exact le_trans (ih _ _ _) (by simp; try omega)

/-- `mapBatch` distributes over append, advancing the image index by the
length of the first part. -/
theorem mapBatch_append (f : String → FetchOutcome) (ts : String) :
    ∀ (a b : List ImgSource) (idx : Nat),
      mapBatch f ts idx (a ++ b) =
        mapBatch f ts idx a ++ mapBatch f ts (idx + a.length) b := by
  intro a
  induction a with
  | nil => intro b idx; simp [mapBatch]
  | cons s rest ih =>
    intro b idx
    simp only [List.cons_append, mapBatch, List.append_eq, List.length_cons]
    rw [ih b (idx + 1)]
    rw [show idx + 1 + rest.length = idx + (rest.length + 1) from by omega]

/-- Batch boundaries do not affect the fetch stream: the chunked loop
equals the flat indexed map (image indices are global positions). -/
theorem processBatches_eq_mapBatch (f : String → FetchOutcome) (ts : String) :
    ∀ (l : List ImgSource) (idx : Nat),
      processBatches f ts idx l = mapBatch f ts idx l
  | [], _ => rfl
  | [_], _ => rfl
  | [_, _], _ => rfl
  | [_, _, _], _ => rfl
  | [_, _, _, _], _ => rfl
  | [_, _, _, _, _], _ => rfl
  | [_, _, _, _, _, _], _ => rfl
  | [_, _, _, _, _, _, _], _ => rfl
  | [_, _, _, _, _, _, _, _], _ => rfl
  | [_, _, _, _, _, _, _, _, _], _ => rfl
  | s1 :: s2 :: s3 :: s4 :: s5 :: s6 :: s7 :: s8 :: s9 :: s10 :: rest, idx => by
    rw [processBatches, processBatches_eq_mapBatch f ts rest]
    have h := mapBatch_append f ts [s1, s2, s3, s4, s5, s6, s7, s8, s9, s10] rest idx
    simp only [List.cons_append, List.nil_append, List.length_cons,
      List.length_nil] at h
    rw [← h]

/-- Whether a fetch fails is independent of the image index handed to
`fetchImage` (the index only names the file). -/
theorem isErrB_fetchImagePure_idx (f : String → FetchOutcome) (ts src : String)
    (t : Nat) : ∀ (i j : Nat),
      isErrB (fetchImagePure f ts src t i) = isErrB (fetchImagePure f ts src t j) := by
  intro i j
  unfold fetchImagePure
  by_cases h1 : jsStartsWith src "data:"
  · simp only [h1, if_true]
    cases h2 : parseDataUrl src with
    | none => rfl
    | some p =>
      obtain ⟨mime, payload⟩ := p
      by_cases h3 : atobOk payload
      · simp [h3, isErrB]
      · simp [h3, isErrB]
  · simp only [h1, Bool.false_eq_true, if_false]
    cases h4 : f src with
    | thrown m => rfl
    | resp status statusText blobType =>
      by_cases h5 : (200 ≤ status && status ≤ 299) = true
      · simp [h5, isErrB]
      · simp [h5, isErrB]

/-- The fetch stream has one entry per source. -/
theorem mapBatch_length (f : String → FetchOutcome) (ts : String) :
    ∀ (l : List ImgSource) (idx : Nat), (mapBatch f ts idx l).length = l.length := by
  intro l
  induction l with
  | nil => intro idx; rfl
  | cons s rest ih => intro idx; simp [mapBatch, ih]

/-- The failure records of the fetch stream count exactly the sources
that fail to resolve. -/
theorem errRecords_mapBatch (f : String → FetchOutcome) (ts : String) :
    ∀ (l : List ImgSource) (idx : Nat),
      (errRecords (mapBatch f ts idx l)).length = l.countP (failsToResolve f ts) := by
  intro l
  induction l with
  | nil => intro idx; rfl
  | cons s rest ih =>
    intro idx
    simp only [mapBatch, errRecords, List.filterMap_cons, List.countP_cons]
    cases h : fetchImagePure f ts s.src s.turnIndex idx with
    | ok img =>
      have hf : failsToResolve f ts s = false := by
        unfold failsToResolve
        rw [isErrB_fetchImagePure_idx f ts s.src s.turnIndex 1 idx, h]
        rfl
      simpa [hf, errRecords] using ih (idx + 1)
    | err e =>
      have hf : failsToResolve f ts s = true := by
        unfold failsToResolve
        rw [isErrB_fetchImagePure_idx f ts s.src s.turnIndex 1 idx, h]
        rfl
      simpa [hf, errRecords] using ih (idx + 1)

/-- Every entry of the fetch stream is either a success or a failure
record. -/
theorem okImages_add_errRecords (res : List FetchRes) :
    (okImages res).length + (errRecords res).length = res.length := by
  induction res with
  | nil => rfl
  | cons r rest ih =>
    cases r with
    | ok i => simp [okImages, errRecords, List.filterMap_cons] at ih ⊢; omega
    | err f => simp [okImages, errRecords, List.filterMap_cons] at ih ⊢; omega

/-- A success's filename carries the image index it was dispatched
with. -/
theorem resNumberOk_fetchImagePure (f : String → FetchOutcome) (ts src : String)
    (t idx : Nat) : resNumberOk (fetchImagePure f ts src t idx) idx = true := by
  unfold fetchImagePure
  by_cases h1 : jsStartsWith src "data:"
  · simp only [h1, if_true]
    cases h2 : parseDataUrl src with
    | none => rfl
    | some p =>
      obtain ⟨mime, payload⟩ := p
      by_cases h3 : atobOk payload
      · simp only [h3, if_true]
        show jsStartsWith (imageFilename idx _) _ = true
        unfold imageFilename
        exact jsStartsWith_append _ _
      · simp [h3, resNumberOk]
  · simp only [h1, Bool.false_eq_true, if_false]
    cases h4 : f src with
    | thrown m => rfl
    | resp status statusText blobType =>
      by_cases h5 : (200 ≤ status && status ≤ 299) = true
      · simp only [h5, if_true]
        show jsStartsWith (imageFilename idx _) _ = true
        unfold imageFilename
        exact jsStartsWith_append _ _
      · simp [h5, resNumberOk]

/-- The streaming precondition error is non-empty. -/
theorem streamingError_ne : streamingError ≠ "" := by
  decide

/-- The missing-selectors error is non-empty for every missing list. -/
theorem missingSelectorsError_ne (m : List String) : missingSelectorsError m ≠ "" := by
  intro h
  have hl := congrArg String.length h
  rw [missingSelectorsError] at hl
  rw [String.length_append, String.length_append] at hl
  have h1 : ("Gemini UI may have changed. Missing selectors: " : String).length = 47 := by
    decide
  have h2 : ("" : String).length = 0 := by decide
  omega

/-- A document-level query on a bare text node finds nothing. -/
theorem docQS_text (s : String) (p : El → Bool) : docQS (.text s) p = none := rfl

/-- When the conversation container matches and a body exists, the
fallback path of `findScrollContainer` always yields an element. -/
theorem scrollFallback_isSome (root : DNode)
    (hcc : (docQS root (fun e => matchesConversationContainer e.d)).isSome = true)
    (hbody : (bodyEl root).isSome = true) :
    (scrollFallback root).isSome = true := by
  unfold scrollFallback
  cases hcc' : docQS root (fun e => matchesConversationContainer e.d) with
  | none => rw [hcc'] at hcc; simp at hcc
  | some cc =>
    dsimp only
    cases hw : walkUpScrollable (cc.d :: cc.anc) with
    | some d => rfl
    | none =>
      dsimp only
      cases root with
      | text s => rw [docQS_text] at hcc'; simp at hcc'
      | elem rd cs =>
        dsimp only
        by_cases hr : rd.scrollHeight > rd.clientHeight
        · rw [if_pos hr]
          rfl
        · rw [if_neg hr]
          cases hb : bodyEl (.elem rd cs) with
          | none => rw [hb] at hbody; simp at hbody
          | some e => rfl

end Clio

namespace Clio

/-- The turn list of the threaded run does not depend on the document
being threaded: it is the pure `turnsFrom` over the captured
elements. -/
theorem turnsFromD_fst (total : Nat) :
    ∀ (l : List El) (i : Nat) (doc : DNode),
      (turnsFromD total i l doc).1 = turnsFrom i l := by
  intro l
  induction l with
  | nil => intro i doc; rfl
  | cons e rest ih =>
    intro i doc
    rw [turnsFromD, turnsFrom]
    dsimp only
    rw [ih]

/-- While the loop index stays below `BATCH_SIZE = 20`, `showProgress`
is never called and the threaded document is returned unchanged. -/
theorem turnsFromD_doc_le (total : Nat) :
    ∀ (l : List El) (i : Nat) (doc : DNode), i + l.length ≤ 20 →
      (turnsFromD total i l doc).2 = doc := by
  intro l
  induction l with
  | nil => intro i doc _; rfl
  | cons e rest ih =>
    intro i doc h
    rw [turnsFromD]
    dsimp only
    have hcond : (i > 0 && i % 20 == 0) = false := by
      simp only [List.length_cons] at h
      simp only [Bool.and_eq_false_iff, decide_eq_false_iff_not, beq_eq_false_iff_ne]
      omega
    rw [hcond]
    simp only [Bool.false_eq_true, if_false]
    exact ih (i + 1) doc (by simp only [List.length_cons] at h; omega)

/-! ### Claim theorems -/

/-- Claim C1: the spec's export contract names the conversation array
`messages` and the count field `messageCount`.  Evaluating
`extractConversation` on a well-formed page shows the code instead emits
the keys `turns` and `turnCount` (the remaining metadata keys match the
contract), so the claimed field names do not hold on this code. -/
theorem claim_C1 :
    (extractConversation quietEnv pgC1).success = true ∧
    ((extractConversation quietEnv pgC1).data.map (fun d => jKeys (dataToJson d))) =
      some ["metadata", "turns"] ∧
    ((extractConversation quietEnv pgC1).data.map (fun d => jKeys (metaToJson d.metadata))) =
      some ["conversationId", "title", "extractedAt", "url", "turnCount",
            "imageCount", "extractionErrors", "partialSuccess", "scrollInfo"] ∧
    ((extractConversation quietEnv pgC1).data.map
        (fun d => (jKeys (dataToJson d)).contains "messages")) = some false ∧
    ((extractConversation quietEnv pgC1).data.map
        (fun d => (jKeys (metaToJson d.metadata)).contains "messageCount")) = some false := by
  refine ⟨by decide, rfl, rfl, by decide, by decide⟩

/-- Claim C2: a document with one paired structural container (one user
section and one assistant section, both bearing role attributes) should
yield at most two turns; `extractTurns` instead yields three — the
container itself (classified assistant) plus its two sections — because
`SELECTORS.allMessages` matches both the container and each
role-attributed section. -/
theorem claim_C2 :
    (docQSA docC2 isPairedContainer).length = 1 ∧
    (extractTurns docC2).length = 3 ∧
    ¬((extractTurns docC2).length ≤ 2 * (docQSA docC2 isPairedContainer).length) ∧
    (extractTurns docC2).map (fun t => t.role) = ["assistant", "user", "assistant"] := by
  decide

/-- Claim C3: for `M` gathered attachments of which `F` fail to resolve
(malformed inline payload, non-success status, or thrown fetch error),
`extractImages` returns exactly `F` failure records and `M − F`
successes; it is a total function, so no partial failure can abort the
batch. -/
theorem claim_C3 (fetch : String → FetchOutcome) (ts : String) (turns : List Turn) :
    (extractImages fetch ts turns).errors.length =
      (sourcesOf turns).countP (failsToResolve fetch ts) ∧
    (extractImages fetch ts turns).images.length =
      (sourcesOf turns).length - (sourcesOf turns).countP (failsToResolve fetch ts) ∧
    (extractImages fetch ts turns).images.length +
      (extractImages fetch ts turns).errors.length = (sourcesOf turns).length := by
  have hres : processBatches fetch ts 1 (sourcesOf turns) =
      mapBatch fetch ts 1 (sourcesOf turns) :=
    processBatches_eq_mapBatch fetch ts (sourcesOf turns) 1
  have herr : (extractImages fetch ts turns).errors.length =
      (sourcesOf turns).countP (failsToResolve fetch ts) := by
    show (errRecords (processBatches fetch ts 1 (sourcesOf turns))).length = _
    rw [hres, errRecords_mapBatch]
  have hsum : (extractImages fetch ts turns).images.length +
      (extractImages fetch ts turns).errors.length = (sourcesOf turns).length := by
    show (okImages (processBatches fetch ts 1 (sourcesOf turns))).length +
        (errRecords (processBatches fetch ts 1 (sourcesOf turns))).length = _
    rw [hres, okImages_add_errRecords, mapBatch_length]
  exact ⟨herr, by omega, hsum⟩

/-- Claim C4 counterexample: a document whose only message-like element
is a bare paired container has zero role-marker matches, yet
`extractConversation` succeeds with data — because
`SELECTORS.allMessages` matches the container, validation passes and the
fail-closed law is violated. -/
theorem claim_C4_counterexample :
    (docQSA docX4 (fun e => matchesUserMessage e.d)).isEmpty = true ∧
    (docQSA docX4 (fun e => matchesAssistantMessage e.d)).isEmpty = true ∧
    (extractConversation quietEnv pgX4).success = true ∧
    (extractConversation quietEnv pgX4).data.isSome = true ∧
    (extractConversation quietEnv pgX4).error = none := by
  decide

/-- Claim C4 (amended): when zero elements match either role marker and
zero elements match the all-messages pattern, `extractConversation`
fails closed: `success = false`, a populated error string, and no
partial result, before any side effect. -/
theorem claim_C4 (env : ExtractEnv) (pg : PageState)
    (h1 : (docQSA pg.root (fun e => matchesAllMessages e.d)).isEmpty = true)
    (h2 : (docQSA pg.root (fun e => matchesUserMessage e.d)).isEmpty = true)
    (h3 : (docQSA pg.root (fun e => matchesAssistantMessage e.d)).isEmpty = true) :
    (extractConversation env pg).success = false ∧
    (extractConversation env pg).data = none ∧
    (extractConversation env pg).error.isSome = true ∧
    (extractConversation env pg).error ≠ some "" := by
  unfold extractConversation
  by_cases hs : isStreaming pg.root
  · rw [if_pos hs]
    refine ⟨?_, ?_, ?_, ?_⟩
    · rfl
    · rfl
    · rfl
    · intro h
      exact streamingError_ne (Option.some.inj h)
  · rw [if_neg hs]
    have hval : (validateSelectors pg.root).isEmpty = false := by
      unfold validateSelectors
      rw [h1, h2, h3]
      split <;> rfl
    simp only [hval, Bool.not_false, if_true]
    refine ⟨?_, ?_, ?_, ?_⟩
    · trivial
    · trivial
    · trivial
    · intro h
      exact missingSelectorsError_ne _ (Option.some.inj h)

/-- Claim C4 witness: the amended fail-closed law applied to a concrete
container-only page with no message structure. -/
theorem claim_C4_witness :
    (extractConversation quietEnv pgW4).success = false ∧
    (extractConversation quietEnv pgW4).data = none ∧
    (extractConversation quietEnv pgW4).error.isSome = true := by
  have h := claim_C4 quietEnv pgW4 (by decide) (by decide) (by decide)
  exact ⟨h.1, h.2.1, h.2.2.1⟩

/-- Claim C5: the loader declares completion in the very round in which
a net-zero-count structural mutation occurred.  `envC5` performs one
insert plus one remove (count unchanged, content changed) during the
settle window of iteration 3, and the run nevertheless completes at
`scrollAttempts = 3` with no additional iteration: the loader watches
only the message count, not structural mutations. -/
theorem claim_C5 :
    countMessages docV1 = countMessages docV2 ∧
    msgTexts docV1 ≠ msgTexts docV2 ∧
    (scrollToLoadAllMessages envC5 docV1 0).1 =
      { success := true, messagesLoaded := 2, scrollAttempts := 3 } ∧
    msgTexts (scrollToLoadAllMessages envC5 docV1 0).2.doc = msgTexts docV2 := by
  decide

/-- Claim C6 counterexample: when no scrollable region is found the
scroll outcome carries `success = false` with an `error` — no advisory
`warning` — and the assembled metadata is not marked partial even though
the scroll phase did not complete and the diagnostics are empty. -/
theorem claim_C6_counterexample :
    (scrollToLoadAllMessages idScrollEnv docPlain 0).1.success = false ∧
    (scrollToLoadAllMessages idScrollEnv docPlain 0).1.warning = none ∧
    (scrollToLoadAllMessages idScrollEnv docPlain 0).1.error =
      some "Could not find scroll container" ∧
    (assembleData "" "" "" "" [] [] []
        (scrollToLoadAllMessages idScrollEnv docPlain 0).1).metadata.partialSuccess
      = false := by
  decide

/-- Claim C6 (amended): for every extraction that produces data, the
partial flag equals «per-image failure records non-empty, or the scroll
loader reported an advisory warning (iteration ceiling)». -/
theorem claim_C6 (env : ExtractEnv) (pg : PageState) :
    ((extractConversation env pg).data.all (fun d =>
      d.metadata.partialSuccess ==
        (decide (d.metadata.extractionErrors.length > 0) ||
         (scrollToLoadAllMessages env.scrollEnv pg.root pg.scrollTop).1.warning.isSome)))
      = true := by
  unfold extractConversation
  by_cases hs : isStreaming pg.root
  · rw [if_pos hs]
    rfl
  · rw [if_neg hs]
    by_cases hv : (validateSelectors pg.root).isEmpty
    · simp only [hv, Bool.not_true, Bool.false_eq_true, if_false]
      simp [Option.all, assembleData]
    · simp only [Bool.not_eq_true] at hv
      simp only [hv, Bool.not_false, if_true]
      rfl

/-- Claim C7 counterexample: of two discovered attachments the first
(malformed) fails and the second succeeds, yet the sole success is named
`images/002.png` — the failure consumed number 1, so successes are not
numbered consecutively. -/
theorem claim_C7_counterexample :
    (sourcesOf turnsC7).length = 2 ∧
    (extractImages noFetch "2026-01-20T00:00:00.000Z" turnsC7).errors.length = 1 ∧
    ((extractImages noFetch "2026-01-20T00:00:00.000Z" turnsC7).images.map
        (fun i => i.filename)) = ["images/002.png"] := by
  decide

/-- Claim C7 (amended): the successes of `extractImages` are exactly the
successful entries of the flat fetch stream in which the attachment at
discovery position `k` is dispatched with image index `k + 1` —
zero-padded numbers are assigned by discovery position, consumed by
failures as well, independent of turn index and of batch boundaries —
and every success's filename carries the index it was dispatched with. -/
theorem claim_C7 :
    (∀ (fetch : String → FetchOutcome) (ts : String) (turns : List Turn),
      (extractImages fetch ts turns).images =
        okImages (mapBatch fetch ts 1 (sourcesOf turns))) ∧
    (∀ (fetch : String → FetchOutcome) (ts src : String) (t idx : Nat),
      resNumberOk (fetchImagePure fetch ts src t idx) idx = true) := by
  constructor
  · intro fetch ts turns
    show okImages (processBatches fetch ts 1 (sourcesOf turns)) = _
    rw [processBatches_eq_mapBatch]
  · exact resNumberOk_fetchImagePure

/-- Claim C8: the scroll loader terminates — it performs at most
`maxScrollAttempts = 1000` iterations for every environment and
document, and on exhausting the ceiling it stops non-fatally
(`success = true`) with the advisory warning, returning the messages
counted at that point. -/
theorem claim_C8 :
    (∀ (env : Nat → SBrowser → SBrowser) (root : DNode) (top : Nat),
      (scrollToLoadAllMessages env root top).1.scrollAttempts ≤
        SCROLL_CONFIG.maxScrollAttempts) ∧
    (∀ (env : Nat → SBrowser → SBrowser) (t : Nat) (st : LoopSt) (b : SBrowser),
      scrollLoop env 0 t st b =
        ({ success := true, messagesLoaded := countMessages b.doc
           scrollAttempts := st.scrollAttempts, warning := some ceilingWarning
           error := none }, b)) := by
  constructor
  · intro env root top
    unfold scrollToLoadAllMessages
    cases h : findScrollContainer root with
    | none => dsimp only; exact Nat.zero_le _
    | some c =>
      have hb := scrollLoop_attempts_le env SCROLL_CONFIG.maxScrollAttempts 0
        { lastMessageCount := countMessages root, stableCount := 0
          scrollAttempts := 0, lastScrollTop := top }
        { doc := root, scrollTop := top }
      simpa using hb
  · intro env t st b
    rfl

/-- Claim C9 counterexample: on a page with 21 captured message
elements the extraction loop calls `showProgress` at `i = 20`, so the
run appends the `#clio-progress` indicator inside `document.body` — the
live document IS mutated, refuting the claim as stated.  Stripping the
indicator recovers the original document, and a second run against the
mutated document still yields the identical turn list there. -/
theorem claim_C9_counterexample :
    (capturedEls doc21).length = 21 ∧
    hasProgressN doc21 = false ∧
    hasProgressN (extractTurnsD doc21).2 = true ∧
    stripProgressN (extractTurnsD doc21).2 = doc21 ∧
    extractTurns ((extractTurnsD doc21).2) = (extractTurnsD doc21).1 := by
  refine ⟨by decide, by decide, by decide, dnodeBeq_eq _ _ (by decide), by decide⟩

/-- Claim C9 (amended): text extraction operates only on cloned value
copies (`cloneNode n = n`), and when at most `BATCH_SIZE = 20` message
elements are captured the run performs no live-document mutation at all
— the threaded run computes the input document back unchanged — so
re-running `extractTurns` against it yields the identical `Turn[]`.
(With more than 20 captured elements the progress indicator mutates
`document.body`; see the counterexample, where stripping the indicator
recovers the document and the re-run still agrees.) -/
theorem claim_C9 (root : DNode) (h20 : (capturedEls root).length ≤ 20) :
    cloneNode root = root ∧
    (extractTurnsD root).1 = extractTurns root ∧
    (extractTurnsD root).2 = root ∧
    extractTurns ((extractTurnsD root).2) = (extractTurnsD root).1 := by
  have h1 : (extractTurnsD root).1 = extractTurns root := by
    unfold extractTurnsD extractTurns
    exact turnsFromD_fst (capturedEls root).length (capturedEls root) 0 root
  have h2 : (extractTurnsD root).2 = root := by
    unfold extractTurnsD
    exact turnsFromD_doc_le (capturedEls root).length (capturedEls root) 0 root
      (by omega)
  refine ⟨cloneNode_eq root, h1, h2, ?_⟩
  rw [h2, h1]

/-- Claim C9 witness: the amended statement at the one-message fixture,
whose single captured element is within the batch size. -/
theorem claim_C9_witness :
    cloneNode docC1 = docC1 ∧
    (extractTurnsD docC1).1 = extractTurns docC1 ∧
    (extractTurnsD docC1).2 = docC1 ∧
    extractTurns ((extractTurnsD docC1).2) = (extractTurnsD docC1).1 :=
  claim_C9 docC1 (by decide)

/-- Claim C10 counterexample: a document with a body element but no
conversation-container match makes `findScrollContainer` return `null`,
so the `Could not find scroll container` branch of
`scrollToLoadAllMessages` is reachable at the function level. -/
theorem claim_C10_counterexample :
    (bodyEl docPlain).isSome = true ∧
    findScrollContainer docPlain = none ∧
    (scrollToLoadAllMessages idScrollEnv docPlain 0).1 =
      { success := false, messagesLoaded := 0, scrollAttempts := 0
        error := some "Could not find scroll container" } := by
  decide

/-- Claim C10 (amended): for every document with a body element in which
the conversation-container selector matches — which selector validation
guarantees before the loader runs inside `extractConversation` —
`findScrollContainer` returns an element, so the error branch is
unreachable and the loader always proceeds to scroll. -/
theorem claim_C10 (root : DNode) (top : Nat) (env : Nat → SBrowser → SBrowser)
    (hcc : (docQS root (fun e => matchesConversationContainer e.d)).isSome = true)
    (hbody : (bodyEl root).isSome = true) :
    (findScrollContainer root).isSome = true ∧
    (scrollToLoadAllMessages env root top).1.success = true ∧
    (scrollToLoadAllMessages env root top).1.error = none := by
  have hf : (findScrollContainer root).isSome = true := by
    unfold findScrollContainer
    cases hsc : docQS root (fun e => matchesScrollContainer e.d) with
    | none => exact scrollFallback_isSome root hcc hbody
    | some c =>
      dsimp only
      by_cases h : c.d.scrollHeight > c.d.clientHeight
      · rw [if_pos h]
        rfl
      · rw [if_neg h]
        exact scrollFallback_isSome root hcc hbody
  obtain ⟨d, hd⟩ := Option.isSome_iff_exists.mp hf
  refine ⟨hf, ?_, ?_⟩
  · unfold scrollToLoadAllMessages
    rw [hd]
    exact (scrollLoop_success env _ _ _ _).1
  · unfold scrollToLoadAllMessages
    rw [hd]
    exact (scrollLoop_success env _ _ _ _).2

/-- Claim C10 witness: the amended statement applied to a concrete page
with a body and a conversation container. -/
theorem claim_C10_witness :
    (findScrollContainer docC1).isSome = true ∧
    (scrollToLoadAllMessages idScrollEnv docC1 0).1.success = true ∧
    (scrollToLoadAllMessages idScrollEnv docC1 0).1.error = none :=
  claim_C10 docC1 0 idScrollEnv (by decide) (by decide)

end Clio
